import Mathlib

/-!
Shallow embedding of the client-side notification engine of the
modern-dashboard repository (src/contexts/NotificationContext.tsx).

Browser facilities are made explicit:
  * `localStorage` is a typed key/value `Store` carried in the state, with a
    `writeLog` recording every `setItem` call; a write can fail (quota
    exceeded), which in the source is an uncaught exception unless the call
    site wraps it in `try`/`catch`.
  * `Notification.permission`, push support and the outcome of
    `Notification.requestPermission()` are fields of a read-only `Env`.
  * The value produced by `generateUniqueNotificationId()` is passed to
    `sendNotification` as the explicit argument `gid` (the generator mixes a
    timestamp, a module counter and a random suffix, so it is modelled as an
    arbitrary string).
  * React `setX` state updates are applied synchronously, in statement order;
    an operation that throws returns the state reached so far together with
    `some` error, and later statements of the operation do not run.
Date strings are represented by their parsed epoch-millisecond values
(`epochMs` computes the value `new Date("yyyy-mm-dd").getTime()` yields), and
`Number.prototype.toLocaleString` is abstracted as plain decimal rendering.
-/

namespace ModernDashboard

/-- Per-user notification channel preferences (interface NotificationSettings). -/
structure NotificationSettings where
  email : Bool
  push : Bool
  weeklySummary : Bool
  taskReminders : Bool
  deadlineAlerts : Bool
  teamUpdates : Bool
deriving Repr, DecidableEq

/-- defaultSettings from the source. -/
def defaultSettings : NotificationSettings :=
  { email := true, push := false, weeklySummary := false,
    taskReminders := true, deadlineAlerts := true, teamUpdates := true }

/-- Notification.type : 'email' | 'push' | 'system'. -/
inductive NotifType
  | email
  | push
  | system
deriving Repr, DecidableEq

/-- Notification.category : 'deadline' | 'task' | 'team' | 'summary' | 'project'. -/
inductive NotifCategory
  | deadline
  | task
  | team
  | summary
  | project
deriving Repr, DecidableEq

/-- A ledger entry (interface Notification). `data` is an opaque payload. -/
structure Notification where
  id : String
  type : NotifType
  category : NotifCategory
  title : String
  message : String
  data : Option String
  read : Bool
  created_at : String
deriving Repr, DecidableEq

/-- The argument of sendNotification: a Notification without id, read,
created_at (TypeScript Omit). -/
structure Candidate where
  type : NotifType
  category : NotifCategory
  title : String
  message : String
  data : Option String := none
deriving Repr, DecidableEq

/-- The authenticated user as consumed from AuthContext. -/
structure UserT where
  id : String
  name : String
deriving Repr, DecidableEq

/-- The browser permission state Notification.permission. -/
inductive Permission
  | granted
  | denied
  | default
deriving Repr, DecidableEq

/-- Outcome of the async Notification.requestPermission() call: it resolves
to a permission value or throws. -/
inductive ReqOutcome
  | resolves (p : Permission)
  | throws
deriving Repr, DecidableEq

/-- A project as consumed from AppContext by the rule evaluators.  Date-string
fields are carried as their parsed epoch-millisecond values; `none` stands for
an absent/falsy date string. -/
structure Project where
  id : String
  name : String
  status : String
  due_date : Option Int
  deadline : Option Int
  budget : Option Int
  progress : Option Int
  updated_at : Option Int
  created_at : Int
deriving Repr, DecidableEq

/-- project.due_date || project.deadline. -/
def Project.dueMs (p : Project) : Option Int :=
  p.due_date.orElse (fun _ => p.deadline)

/-- A value held in localStorage under one of the two keys the engine uses
(JSON serialization is modelled as the identity on typed values). -/
inductive StoredValue
  | settingsVal (s : NotificationSettings)
  | notifsVal (l : List Notification)
deriving Repr, DecidableEq

/-- localStorage, restricted to the keys this engine touches. -/
abbrev Store := List (String × StoredValue)

/-- localStorage.getItem (first binding wins). -/
def storeGet (k : String) : Store → Option StoredValue
  | [] => none
  | (k', v) :: rest => if k' == k then some v else storeGet k rest

/-- localStorage.setItem on the map itself. -/
def storeSet (k : String) (v : StoredValue) (s : Store) : Store :=
  (k, v) :: s.filter (fun e => e.1 != k)

/-- localStorage.removeItem. -/
def storeRemove (k : String) (s : Store) : Store :=
  s.filter (fun e => e.1 != k)

/-- The read-only browser/session environment of one operation. -/
structure Env where
  user : Option UserT
  pushSupported : Bool
  permission : Permission
  requestOutcome : ReqOutcome
  quotaFail : Bool
  nowMs : Int
  nowIso : String
  projects : List Project
deriving Repr, DecidableEq

/-- The provider's mutable state: the three useState cells that the claims
are about, the initialized flag, plus the storage and its write log. -/
structure NotifState where
  settings : NotificationSettings
  notifications : List Notification
  unreadCount : Nat
  initialized : Bool
  store : Store
  writeLog : List (String × StoredValue)
deriving Repr, DecidableEq

/-- The one exception localStorage.setItem raises in the source's scenario
of interest (quota exceeded). -/
inductive StorageError
  | quotaExceeded
deriving Repr, DecidableEq

/-- Key `notification_settings_${user.id}`. -/
def settingsKey (uid : String) : String := "notification_settings_" ++ uid

/-- Key `notifications_${user.id}`. -/
def notifsKey (uid : String) : String := "notifications_" ++ uid

/-- localStorage.setItem as the source calls it: throws when the quota is
exceeded (the pair's second component carries the raised error), otherwise
updates the store and appends the write to the log. -/
def setItem (env : Env) (k : String) (v : StoredValue) (st : NotifState) :
    NotifState × Option StorageError :=
  if env.quotaFail then (st, some StorageError.quotaExceeded)
  else ({ st with store := storeSet k v st.store
                  writeLog := st.writeLog ++ [(k, v)] }, none)

/-- requestPushPermission (lines 153-163): false when unsupported; otherwise
the request's resolved value compared with 'granted', any request error
caught and treated as a denial. -/
def requestPushPermission (env : Env) : Bool :=
  if !env.pushSupported then false
  else
    match env.requestOutcome with
    | ReqOutcome.resolves p => p == Permission.granted
    | ReqOutcome.throws => false

/-- Partial<NotificationSettings>: the argument of updateSettings. -/
structure PartialSettings where
  email : Option Bool := none
  push : Option Bool := none
  weeklySummary : Option Bool := none
  taskReminders : Option Bool := none
  deadlineAlerts : Option Bool := none
  teamUpdates : Option Bool := none
deriving Repr, DecidableEq

/-- The spread { ...settings, ...newSettings }. -/
def mergeSettings (s : NotificationSettings) (p : PartialSettings) :
    NotificationSettings :=
  { email := p.email.getD s.email,
    push := p.push.getD s.push,
    weeklySummary := p.weeklySummary.getD s.weeklySummary,
    taskReminders := p.taskReminders.getD s.taskReminders,
    deadlineAlerts := p.deadlineAlerts.getD s.deadlineAlerts,
    teamUpdates := p.teamUpdates.getD s.teamUpdates }

/-- updateSettings (lines 134-150): merge, apply, persist; when the partial
sets push to true on a supported platform, request permission and on refusal
revert push to false and persist again. -/
def updateSettings (env : Env) (p : PartialSettings) (st : NotifState) :
    NotifState × Option StorageError :=
  match env.user with
  | none => (st, none)
  | some u =>
    let updatedSettings := mergeSettings st.settings p
    let st1 := { st with settings := updatedSettings }
    match setItem env (settingsKey u.id) (StoredValue.settingsVal updatedSettings) st1 with
    | (st2, some e) => (st2, some e)
    | (st2, none) =>
      if p.push == some true && env.pushSupported then
        if requestPushPermission env then (st2, none)
        else
          let revertedSettings := { updatedSettings with push := false }
          let st3 := { st2 with settings := revertedSettings }
          setItem env (settingsKey u.id) (StoredValue.settingsVal revertedSettings) st3
      else (st2, none)

/-- The Notification record sendNotification builds from its argument, the
generated id and the current time. -/
def mkNotification (env : Env) (gid : String) (c : Candidate) : Notification :=
  { id := gid, type := c.type, category := c.category, title := c.title,
    message := c.message, data := c.data, read := false, created_at := env.nowIso }

/-- sendNotification (lines 166-208).  The functional updater checks for an
entry with the same id and returns the previous list unchanged when found
(no persist in that branch); otherwise it prepends, truncates to 50 and
persists.  In both branches setUnreadCount(prev => prev + 1) then runs.  The
native push dispatch touches no modelled state (its errors are caught). -/
def sendNotification (env : Env) (gid : String) (c : Candidate) (st : NotifState) :
    NotifState × Option StorageError :=
  match env.user with
  | none => (st, none)
  | some u =>
    let newNotification := mkNotification env gid c
    if st.notifications.any (fun n => n.id == newNotification.id) then
      ({ st with unreadCount := st.unreadCount + 1 }, none)
    else
      let updated := (newNotification :: st.notifications).take 50
      match setItem env (notifsKey u.id) (StoredValue.notifsVal updated) st with
      | (st', some e) => (st', some e)
      | (st', none) =>
        ({ st' with notifications := updated
                    unreadCount := st'.unreadCount + 1 }, none)

/-- markAsRead (lines 211-221). -/
def markAsRead (env : Env) (notificationId : String) (st : NotifState) :
    NotifState × Option StorageError :=
  match env.user with
  | none => (st, none)
  | some u =>
    let updatedNotifications := st.notifications.map fun n =>
      if n.id == notificationId then { n with read := true } else n
    let st1 := { st with notifications := updatedNotifications
                         unreadCount := (updatedNotifications.filter fun n => !n.read).length }
    setItem env (notifsKey u.id) (StoredValue.notifsVal updatedNotifications) st1

/-- markAllAsRead (lines 224-231). -/
def markAllAsRead (env : Env) (st : NotifState) : NotifState × Option StorageError :=
  match env.user with
  | none => (st, none)
  | some u =>
    let updatedNotifications := st.notifications.map fun n => { n with read := true }
    let st1 := { st with notifications := updatedNotifications
                         unreadCount := 0 }
    setItem env (notifsKey u.id) (StoredValue.notifsVal updatedNotifications) st1

/-- clearAll (lines 234-240): removeItem raises no quota error. -/
def clearAll (env : Env) (st : NotifState) : NotifState × Option StorageError :=
  match env.user with
  | none => (st, none)
  | some u =>
    ({ st with notifications := []
               unreadCount := 0
               store := storeRemove (notifsKey u.id) st.store }, none)

/-- The keep-first-occurrence dedup of the load path (lines 115-117). -/
def dedupById : List Notification → List Notification
  | [] => []
  | n :: rest => n :: dedupById (rest.filter (fun m => m.id != n.id))
termination_by l => l.length
decreasing_by
  simp only [List.length_cons]
  have := List.length_filter_le (fun m => m.id != n.id) rest
  omega

/-- The initialize effect (lines 81-131): no-op without a user or once
initialized; otherwise load settings (absent or foreign-typed entry behaves
as a parse failure: defaults are used), sync the push flag with the current
platform permission, persist the corrected settings (an uncaught write), then
load and repair the stored notifications inside a try/catch (a failing repair
write is caught and only skips the in-memory load), and set initialized. -/
def initEffect (env : Env) (st : NotifState) : NotifState × Option StorageError :=
  match env.user with
  | none => (st, none)
  | some u =>
    if st.initialized then (st, none)
    else
      let userSettings :=
        match storeGet (settingsKey u.id) st.store with
        | some (StoredValue.settingsVal s) => s
        | _ => defaultSettings
      let userSettings :=
        if env.pushSupported then
          if env.permission == Permission.granted && !userSettings.push then
            { userSettings with push := true }
          else if env.permission == Permission.denied then
            { userSettings with push := false }
          else userSettings
        else userSettings
      let st1 := { st with settings := userSettings }
      match setItem env (settingsKey u.id) (StoredValue.settingsVal userSettings) st1 with
      | (st2, some e) => (st2, some e)
      | (st2, none) =>
        match storeGet (notifsKey u.id) st2.store with
        | some (StoredValue.notifsVal parsedNotifications) =>
          let uniqueNotifications := dedupById parsedNotifications
          let step :=
            if uniqueNotifications.length != parsedNotifications.length then
              setItem env (notifsKey u.id) (StoredValue.notifsVal uniqueNotifications) st2
            else (st2, none)
          match step with
          | (st3, some _e) => ({ st3 with initialized := true }, none)
          | (st3, none) =>
            ({ st3 with notifications := uniqueNotifications
                        unreadCount := (uniqueNotifications.filter fun n => !n.read).length
                        initialized := true }, none)
        | _ => ({ st2 with initialized := true }, none)

/-- Math.ceil(a / b) on exact integers, b positive. -/
def ceilDiv (a b : Int) : Int := -((-a).fdiv b)

/-- Math.ceil(timeDiff / (1000 * 3600 * 24)). -/
def daysUntil (now due : Int) : Int := ceilDiv (due - now) (1000 * 3600 * 24)

/-- The notifications one scheduleDeadlineAlerts pass hands to
sendNotification (lines 251-296), in source order. -/
def deadlineAlertCandidates (now : Int) (projects : List Project) : List Candidate :=
  projects.flatMap fun project =>
    if project.status == "completed" then []
    else
      match project.dueMs with
      | none => []
      | some due =>
        let daysDiff := daysUntil now due
        (if daysDiff == 1 then
          [{ type := NotifType.push, category := NotifCategory.deadline,
             title := "⏰ Prazo se aproximando",
             message := "O projeto \"" ++ project.name ++ "\" vence amanhã!",
             data := some project.id }] else []) ++
        (if daysDiff == 3 then
          [{ type := NotifType.push, category := NotifCategory.deadline,
             title := "📅 Prazo em 3 dias",
             message := "O projeto \"" ++ project.name ++ "\" vence em 3 dias.",
             data := some project.id }] else []) ++
        (if daysDiff < 0 then
          [{ type := NotifType.push, category := NotifCategory.deadline,
             title := "🚨 Projeto em atraso",
             message := "O projeto \"" ++ project.name ++ "\" está " ++
               toString daysDiff.natAbs ++ " dia(s) atrasado.",
             data := some project.id }] else [])

/-- Sends each candidate in turn; `gen` supplies the k-th generated id.  An
uncaught storage error aborts the loop as an exception would. -/
def emitAll (env : Env) (gen : Nat → String) :
    Nat → List Candidate → NotifState → NotifState × Option StorageError
  | _, [], st => (st, none)
  | k, c :: cs, st =>
    match sendNotification env (gen k) c st with
    | (st', some e) => (st', some e)
    | (st', none) => emitAll env gen (k + 1) cs st'

/-- scheduleDeadlineAlerts (lines 243-297). -/
def scheduleDeadlineAlerts (env : Env) (gen : Nat → String) (st : NotifState) :
    NotifState × Option StorageError :=
  if !st.settings.deadlineAlerts || env.user.isNone || env.projects.isEmpty then (st, none)
  else emitAll env gen 0 (deadlineAlertCandidates env.nowMs env.projects) st

/-- The single candidate scheduleTaskReminders may emit (lines 305-327). -/
def taskReminderCandidate (today : Int) (projects : List Project) : Option Candidate :=
  let upcomingProjects := projects.filter fun project =>
    project.status != "completed" &&
      match project.dueMs with
      | some due =>
        let daysDiff := daysUntil today due
        decide (0 ≤ daysDiff) && decide (daysDiff ≤ 7)
      | none => false
  if upcomingProjects.length > 0 then
    some { type := NotifType.push, category := NotifCategory.task,
           title := "📋 Lembretes de Tarefas",
           message := "Você tem " ++ toString upcomingProjects.length ++
             " projeto(s) com prazo na próxima semana.",
           data := some (String.intercalate "," (upcomingProjects.map Project.name)) }
  else none

/-- scheduleTaskReminders (lines 300-328). -/
def scheduleTaskReminders (env : Env) (gen : Nat → String) (st : NotifState) :
    NotifState × Option StorageError :=
  if !st.settings.taskReminders || env.user.isNone || env.projects.isEmpty then (st, none)
  else emitAll env gen 0 (taskReminderCandidate env.nowMs env.projects).toList st

/-- Number.prototype.toLocaleString, abstracted as plain decimal rendering
(locale-dependent digit grouping is out of the model's scope). -/
def localeString (n : Int) : String := toString n

/-- Math.round(a / b) for b positive: half rounds toward positive infinity. -/
def roundDiv (a b : Int) : Int := (2 * a + b).fdiv (2 * b)

/-- The summary candidate sendWeeklySummary emits (lines 336-383). -/
def weeklySummaryCandidate (now : Int) (projects : List Project) : Candidate :=
  let weekAgo := now - 7 * 24 * 60 * 60 * 1000
  let completedThisWeek := projects.filter fun project =>
    project.status == "completed" &&
      decide (weekAgo ≤ (project.updated_at.getD project.created_at))
  let inProgress := projects.filter fun project =>
    project.status == "in_progress" || project.status == "planning"
  let overdue := projects.filter fun project =>
    project.status != "completed" &&
      match project.dueMs with
      | some due => decide (due < now)
      | none => false
  let totalBudget := projects.foldl (fun sum project => sum + project.budget.getD 0) 0
  let avgProgress :=
    if projects.length > 0 then
      roundDiv (projects.foldl (fun sum project => sum + project.progress.getD 0) 0)
        projects.length
    else 0
  { type := NotifType.email, category := NotifCategory.summary,
    title := "📊 Resumo Semanal - ProjectManager",
    message := "📊 Resumo da semana:\n• " ++ toString completedThisWeek.length ++
      " projeto(s) concluído(s)\n• " ++ toString inProgress.length ++
      " em andamento  \n• " ++ toString overdue.length ++ " atrasado(s)\n• " ++
      toString projects.length ++ " projetos totais\n• Progresso médio: " ++
      toString avgProgress ++ "%\n• Orçamento total: R$ " ++ localeString totalBudget,
    data := none }

/-- sendWeeklySummary (lines 331-384). -/
def sendWeeklySummary (env : Env) (gen : Nat → String) (st : NotifState) :
    NotifState × Option StorageError :=
  if !st.settings.weeklySummary || env.user.isNone || env.projects.isEmpty then (st, none)
  else emitAll env gen 0 [weeklySummaryCandidate env.nowMs env.projects] st

/-- The detail of a 'projectUpdated' custom event. -/
structure ProjectUpdateDetail where
  projectId : String
  action : String
  user : Option UserT
deriving Repr, DecidableEq

/-- The detail of a 'projectCreated' custom event. -/
structure ProjectCreatedDetail where
  project : Project
  user : Option UserT
deriving Repr, DecidableEq

/-- handleProjectUpdate (lines 393-405): the candidate it sends, if any. -/
def handleProjectUpdate (currentUser : UserT) (d : ProjectUpdateDetail) :
    Option Candidate :=
  match d.user with
  | some actionUser =>
    if actionUser.id != currentUser.id then
      some { type := NotifType.push, category := NotifCategory.team,
             title := "👥 Atualização da Equipe",
             message := actionUser.name ++ " " ++ d.action ++ " um projeto.",
             data := some d.projectId }
    else none
  | none => none

/-- handleProjectCreated (lines 407-419): the candidate it sends, if any. -/
def handleProjectCreated (currentUser : UserT) (d : ProjectCreatedDetail) :
    Option Candidate :=
  match d.user with
  | some creator =>
    if creator.id != currentUser.id then
      some { type := NotifType.push, category := NotifCategory.team,
             title := "🆕 Novo Projeto",
             message := creator.name ++ " criou o projeto \"" ++ d.project.name ++ "\".",
             data := some d.project.id }
    else none
  | none => none

/-- Delivery of one 'projectUpdated' event through the bridge effect (lines
390-428): the listener is registered only while teamUpdates is on, a user is
signed in and initialization has happened. -/
def eventBridgeUpdate (env : Env) (gid : String) (d : ProjectUpdateDetail)
    (st : NotifState) : NotifState × Option StorageError :=
  match env.user with
  | none => (st, none)
  | some u =>
    if st.settings.teamUpdates && st.initialized then
      match handleProjectUpdate u d with
      | some c => sendNotification env gid c st
      | none => (st, none)
    else (st, none)

/-- Delivery of one 'projectCreated' event through the bridge effect. -/
def eventBridgeCreated (env : Env) (gid : String) (d : ProjectCreatedDetail)
    (st : NotifState) : NotifState × Option StorageError :=
  match env.user with
  | none => (st, none)
  | some u =>
    if st.settings.teamUpdates && st.initialized then
      match handleProjectCreated u d with
      | some c => sendNotification env gid c st
      | none => (st, none)
    else (st, none)

/-- Days from 1970-01-01 to the civil date y-m-d (proleptic Gregorian). -/
def daysFromCivil (y m d : Int) : Int :=
  let y' := if m ≤ 2 then y - 1 else y
  let era := (if 0 ≤ y' then y' else y' - 399).fdiv 400
  let yoe := y' - era * 400
  let mp := (m + 9).emod 12
  let doy := (153 * mp + 2).fdiv 5 + d - 1
  let doe := yoe * 365 + yoe.fdiv 4 - yoe.fdiv 100 + doy
  era * 146097 + doe - 719468

/-- new Date("yyyy-mm-dd").getTime(): UTC midnight of the date, in ms. -/
def epochMs (y m d : Int) : Int := daysFromCivil y m d * 86400000

/-- The spec's unread-accounting relation: the stored unread counter agrees
with the number of ledger entries with read == false. -/
def unreadInv (st : NotifState) : Prop :=
  st.unreadCount = (st.notifications.filter fun n => !n.read).length

instance (st : NotifState) : Decidable (unreadInv st) := by
  unfold unreadInv; infer_instance

/-- A sequence of sendNotification calls (gid, candidate), stopping at the
first uncaught storage error. -/
def runSends (env : Env) : List (String × Candidate) → NotifState →
    NotifState × Option StorageError
  | [], st => (st, none)
  | (gid, c) :: rest, st =>
    match sendNotification env gid c st with
    | (st', some e) => (st', some e)
    | (st', none) => runSends env rest st'

/-! Concrete fixtures for counterexamples and witnesses. -/

/-- A signed-in user. -/
def baseUser : UserT := { id := "u1", name := "Alice" }

/-- A session without push support, no pending quota failure. -/
def baseEnv : Env :=
  { user := some baseUser, pushSupported := false, permission := Permission.default
    requestOutcome := ReqOutcome.resolves Permission.denied, quotaFail := false
    nowMs := 0, nowIso := "2024-01-01T00:00:00.000Z", projects := [] }

/-- The initialized provider state with an empty ledger and empty storage. -/
def emptyState : NotifState :=
  { settings := defaultSettings, notifications := [], unreadCount := 0
    initialized := true, store := [], writeLog := [] }

/-- One unread ledger entry. -/
def notifA : Notification :=
  { id := "a", type := NotifType.system, category := NotifCategory.project
    title := "t", message := "m", data := none, read := false, created_at := "2024" }

/-- A candidate notification as the callers pass it. -/
def candA : Candidate :=
  { type := NotifType.system, category := NotifCategory.project
    title := "t", message := "m" }

/-- A state whose ledger holds the one unread entry, with a consistent
unread counter. -/
def stOne : NotifState :=
  { settings := defaultSettings, notifications := [notifA], unreadCount := 1
    initialized := true, store := [], writeLog := [] }

/-- An id supply for evaluator runs. -/
def genW (k : Nat) : String := "id-" ++ toString k

/-! Theorems. -/

/-- C5: appending a candidate whose (generated) id equals the id of an entry
already in the ledger leaves the ledger's contents — hence its length —
unchanged, and raises no error. -/
theorem append_idempotent (env : Env) (u : UserT) (gid : String) (c : Candidate)
    (st : NotifState) (hu : env.user = some u)
    (hdup : gid ∈ st.notifications.map Notification.id) :
    (sendNotification env gid c st).1.notifications = st.notifications ∧
    (sendNotification env gid c st).2 = none := by
  have hany : st.notifications.any (fun n => n.id == gid) = true := by
    rw [List.any_eq_true]
    rcases List.mem_map.mp hdup with ⟨n, hn, hid⟩
    exact ⟨n, hn, by simp [hid]⟩
  simp [sendNotification, hu, mkNotification, hany]

/-- Witness for C5 at a concrete duplicate id. -/
theorem append_idempotent_witness :
    (sendNotification baseEnv "a" candA stOne).1.notifications = stOne.notifications ∧
    (sendNotification baseEnv "a" candA stOne).2 = none :=
  append_idempotent baseEnv baseUser "a" candA stOne rfl (by decide)

/-- One sendNotification call keeps the ledger within the 50-entry cap. -/
theorem sendNotification_length_le (env : Env) (gid : String) (c : Candidate)
    (st : NotifState) (h : st.notifications.length ≤ 50) :
    (sendNotification env gid c st).1.notifications.length ≤ 50 := by
  unfold sendNotification
  cases henv : env.user with
  | none => simpa using h
  | some u =>
    by_cases hany : st.notifications.any
        (fun n => n.id == (mkNotification env gid c).id) = true
    · simpa [hany] using h
    · simp only [hany, Bool.false_eq_true, if_false]
      unfold setItem
      by_cases hq : env.quotaFail = true
      · simpa [hq] using h
      · simp only [hq, Bool.false_eq_true, if_false]
        simp [List.length_take_le 50]

/-- C6: from an empty ledger, no sequence of appends pushes the length past
50; and a successful insert into a full (50-entry) ledger keeps the newest 49
previous entries plus the new one, the single evicted entry being exactly the
oldest (the tail of the newest-first sequence). -/
theorem capacity_invariant (env : Env) (ops : List (String × Candidate))
    (st0 : NotifState) (h0 : st0.notifications = []) :
    (runSends env ops st0).1.notifications.length ≤ 50 ∧
    ∀ u gid c st, env.user = some u →
      gid ∉ st.notifications.map Notification.id →
      st.notifications.length = 50 →
      (sendNotification env gid c st).2 = none →
      (sendNotification env gid c st).1.notifications ++ st.notifications.drop 49 =
        mkNotification env gid c :: st.notifications := by
  constructor
  · have main : ∀ (l : List (String × Candidate)) (st : NotifState),
        st.notifications.length ≤ 50 →
        (runSends env l st).1.notifications.length ≤ 50 := by
      intro l
      induction l with
      | nil => intro st h; simpa [runSends] using h
      | cons op rest ih =>
        intro st h
        obtain ⟨gid, c⟩ := op
        have hstep := sendNotification_length_le env gid c st h
        rcases hsn : sendNotification env gid c st with ⟨st', err⟩
        rw [hsn] at hstep
        cases err with
        | none => simpa [runSends, hsn] using ih st' hstep
        | some e => simpa [runSends, hsn] using hstep
    exact main ops st0 (by simp [h0])
  · intro u gid c st hu hfresh hlen hok
    have hany : st.notifications.any
        (fun n => n.id == (mkNotification env gid c).id) = false := by
      rw [List.any_eq_false]
      intro n hn
      simp only [mkNotification, beq_iff_eq]
      intro hid
      exact hfresh (List.mem_map.mpr ⟨n, hn, hid⟩)
    by_cases hq : env.quotaFail = true
    · exfalso
      rw [sendNotification] at hok
      simp [hu, hany, setItem, hq] at hok
    · rw [sendNotification]
      simp only [hu, hany, Bool.false_eq_true, if_false, setItem, hq]
      have htake : ((mkNotification env gid c :: st.notifications).take 50) =
          mkNotification env gid c :: st.notifications.take 49 :=
        List.take_succ_cons ..
      simp only [htake]
      simp [List.take_append_drop]

/-- Witness for C6 at a concrete sequence of appends. -/
theorem capacity_invariant_witness :
    (runSends baseEnv [("a", candA), ("b", candA)] emptyState).1.notifications.length ≤ 50 :=
  (capacity_invariant baseEnv [("a", candA), ("b", candA)] emptyState rfl).1

/-- A non-completed project due 2024-06-11. -/
def projTomorrow : Project :=
  { id := "p1", name := "Site", status := "in_progress"
    due_date := some (epochMs 2024 6 11), deadline := none
    budget := none, progress := none, updated_at := none, created_at := 0 }

/-- The same project with due date 2024-06-05. -/
def projOverdue : Project :=
  { projTomorrow with due_date := some (epochMs 2024 6 5) }

/-- C8: with now = 2024-06-10, a single non-completed project due 2024-06-11
makes the deadline evaluator emit exactly one category=deadline notification
with the due-tomorrow message; with due date 2024-06-05 it emits exactly one
overdue notification stating 5 day(s) late. -/
theorem deadline_math :
    (deadlineAlertCandidates (epochMs 2024 6 10) [projTomorrow]).map
        (fun c => (c.category, c.message)) =
      [(NotifCategory.deadline, "O projeto \"Site\" vence amanhã!")] ∧
    (deadlineAlertCandidates (epochMs 2024 6 10) [projOverdue]).map
        (fun c => (c.category, c.message)) =
      [(NotifCategory.deadline, "O projeto \"Site\" está 5 dia(s) atrasado.")] := by
  decide

/-- C9: an event whose acting user is the current user produces no
notification through either bridge handler: the whole state — ledger and
unread count included — is left unchanged. -/
theorem self_action_suppression (env : Env) (u actionUser : UserT) (st : NotifState)
    (gid gid' : String) (d : ProjectUpdateDetail) (dc : ProjectCreatedDetail)
    (hu : env.user = some u) (hid : actionUser.id = u.id)
    (hd : d.user = some actionUser) (hdc : dc.user = some actionUser) :
    eventBridgeUpdate env gid d st = (st, none) ∧
    eventBridgeCreated env gid' dc st = (st, none) := by
  have h1 : handleProjectUpdate u d = none := by
    simp [handleProjectUpdate, hd, hid]
  have h2 : handleProjectCreated u dc = none := by
    simp [handleProjectCreated, hdc, hid]
  constructor <;>
    · simp only [eventBridgeUpdate, eventBridgeCreated, hu, h1, h2]
      split <;> rfl

/-- Witness for C9 at a concrete self-originated event. -/
theorem self_action_suppression_witness :
    eventBridgeUpdate baseEnv "g1"
      { projectId := "p1", action := "atualizou", user := some baseUser } stOne =
      (stOne, none) ∧
    eventBridgeCreated baseEnv "g2"
      { project := projTomorrow, user := some baseUser } stOne = (stOne, none) :=
  self_action_suppression baseEnv baseUser baseUser stOne "g1" "g2"
    { projectId := "p1", action := "atualizou", user := some baseUser }
    { project := projTomorrow, user := some baseUser } rfl rfl rfl rfl

/-- C10: with no signed-in user every mutating operation and every rule
evaluator returns immediately, leaving settings, ledger, unread count, the
store and the write log unchanged and raising nothing. -/
theorem no_user_noop (env : Env) (st : NotifState) (hu : env.user = none) :
    (∀ p, updateSettings env p st = (st, none)) ∧
    (∀ gid c, sendNotification env gid c st = (st, none)) ∧
    (∀ nid, markAsRead env nid st = (st, none)) ∧
    markAllAsRead env st = (st, none) ∧
    clearAll env st = (st, none) ∧
    (∀ gen, scheduleDeadlineAlerts env gen st = (st, none)) ∧
    (∀ gen, scheduleTaskReminders env gen st = (st, none)) ∧
    (∀ gen, sendWeeklySummary env gen st = (st, none)) := by
  refine ⟨?_, ?_, ?_, ?_, ?_, ?_, ?_, ?_⟩ <;> intros <;>
    simp [updateSettings, sendNotification, markAsRead, markAllAsRead, clearAll,
      scheduleDeadlineAlerts, scheduleTaskReminders, sendWeeklySummary, hu]

/-- The session environment with nobody signed in. -/
def envNoUser : Env := { baseEnv with user := none }

/-- Witness for C10 at concrete calls. -/
theorem no_user_noop_witness :
    updateSettings envNoUser { push := some true } emptyState = (emptyState, none) ∧
    sendNotification envNoUser "g" candA emptyState = (emptyState, none) ∧
    markAsRead envNoUser "a" emptyState = (emptyState, none) ∧
    markAllAsRead envNoUser emptyState = (emptyState, none) ∧
    clearAll envNoUser emptyState = (emptyState, none) ∧
    scheduleDeadlineAlerts envNoUser genW emptyState = (emptyState, none) ∧
    scheduleTaskReminders envNoUser genW emptyState = (emptyState, none) ∧
    sendWeeklySummary envNoUser genW emptyState = (emptyState, none) := by
  have h := no_user_noop envNoUser emptyState rfl
  exact ⟨h.1 _, h.2.1 _ _, h.2.2.1 _, h.2.2.2.1, h.2.2.2.2.1,
    h.2.2.2.2.2.1 _, h.2.2.2.2.2.2.1 _, h.2.2.2.2.2.2.2 _⟩

/-- A supported-push session whose permission request resolves to a denial. -/
def envDenied : Env :=
  { baseEnv with pushSupported := true, permission := Permission.denied }

/-- C7: on a supported platform whose permission request is refused, an
update that enables push ends with push == false and logs exactly two
persisted settings writes — the optimistic enable (push true) first, the
rollback (push false) second. -/
theorem permission_rollback (env : Env) (u : UserT) (p : PartialSettings)
    (st : NotifState) (hu : env.user = some u) (hsup : env.pushSupported = true)
    (hdeny : requestPushPermission env = false) (hq : env.quotaFail = false)
    (hp : p.push = some true) :
    (updateSettings env p st).2 = none ∧
    (updateSettings env p st).1.settings =
      { mergeSettings st.settings p with push := false } ∧
    (mergeSettings st.settings p).push = true ∧
    (updateSettings env p st).1.writeLog = st.writeLog ++
      [(settingsKey u.id, StoredValue.settingsVal (mergeSettings st.settings p)),
       (settingsKey u.id,
        StoredValue.settingsVal { mergeSettings st.settings p with push := false })] := by
  have hpush : (mergeSettings st.settings p).push = true := by
    simp [mergeSettings, hp]
  refine ⟨?_, ?_, hpush, ?_⟩ <;>
    simp [updateSettings, hu, hsup, hdeny, hq, hp, setItem]

/-- Witness for C7 at a concrete denied request. -/
theorem permission_rollback_witness :
    (updateSettings envDenied { push := some true } emptyState).2 = none ∧
    (updateSettings envDenied { push := some true } emptyState).1.settings =
      { mergeSettings emptyState.settings { push := some true } with push := false } ∧
    (mergeSettings emptyState.settings { push := some true }).push = true ∧
    (updateSettings envDenied { push := some true } emptyState).1.writeLog =
      emptyState.writeLog ++
      [(settingsKey baseUser.id,
        StoredValue.settingsVal (mergeSettings emptyState.settings { push := some true })),
       (settingsKey baseUser.id,
        StoredValue.settingsVal
          { mergeSettings emptyState.settings { push := some true } with push := false })] :=
  permission_rollback envDenied baseUser { push := some true } emptyState
    rfl rfl (by decide) rfl rfl

/-- C1 counterexample: a state satisfying the unread invariant, on which an
append rejected as a duplicate id leaves the ledger unchanged yet still
increments the stored unread counter, breaking the claimed equality. -/
theorem unread_accounting_counterexample :
    unreadInv stOne ∧
    (sendNotification baseEnv "a" candA stOne).2 = none ∧
    ¬ unreadInv (sendNotification baseEnv "a" candA stOne).1 := by
  decide

/-- All dropped entries read makes the dropped part contribute nothing to the
unread filter. -/
theorem unread_filter_take (l : List Notification)
    (h : ∀ n ∈ l.drop 49, n.read = true) :
    ((l.take 49).filter fun n => !n.read).length =
      (l.filter fun n => !n.read).length := by
  conv_rhs => rw [← List.take_append_drop 49 l]
  rw [List.filter_append, List.length_append]
  have hz : ((l.drop 49).filter fun n => !n.read) = [] := by
    rw [List.filter_eq_nil_iff]
    intro n hn
    simp [h n hn]
  rw [hz]
  simp

/-- C1 amended: the unread counter equals the number of unread ledger entries
after markAsRead, markAllAsRead and clearAll unconditionally, and after an
append whose generated id is fresh provided every entry evicted by the
50-entry cap was already read; the equality fails on a duplicate-rejected
append and on an append that evicts an unread tail entry (the counter then
overshoots the ledger's truth). -/
theorem unread_accounting_amended (env : Env) (st : NotifState)
    (hinv : unreadInv st) :
    (∀ nid st', markAsRead env nid st = (st', none) → unreadInv st') ∧
    (∀ st', markAllAsRead env st = (st', none) → unreadInv st') ∧
    (∀ st', clearAll env st = (st', none) → unreadInv st') ∧
    (∀ gid c st', gid ∉ st.notifications.map Notification.id →
      (∀ n ∈ st.notifications.drop 49, n.read = true) →
      sendNotification env gid c st = (st', none) → unreadInv st') := by
  refine ⟨?_, ?_, ?_, ?_⟩
  · intro nid st' h
    cases henv : env.user with
    | none => simp [markAsRead, henv] at h; rw [← h]; exact hinv
    | some u =>
      rw [markAsRead, henv] at h
      by_cases hq : env.quotaFail = true
      · simp [setItem, hq] at h
      · simp only [setItem, hq, Bool.false_eq_true, if_false, Prod.mk.injEq] at h
        rw [← h.1]
        simp [unreadInv]
  · intro st' h
    cases henv : env.user with
    | none => simp [markAllAsRead, henv] at h; rw [← h]; exact hinv
    | some u =>
      rw [markAllAsRead, henv] at h
      by_cases hq : env.quotaFail = true
      · simp [setItem, hq] at h
      · simp only [setItem, hq, Bool.false_eq_true, if_false, Prod.mk.injEq] at h
        rw [← h.1]
        simp only [unreadInv]
        rw [List.filter_eq_nil_iff.mpr]
        · rfl
        · intro n hn
          rcases List.mem_map.mp hn with ⟨m, _hm, hmn⟩
          simp [← hmn]
  · intro st' h
    cases henv : env.user with
    | none => simp [clearAll, henv] at h; rw [← h]; exact hinv
    | some u =>
      simp only [clearAll, henv, Prod.mk.injEq] at h
      rw [← h.1]
      simp [unreadInv]
  · intro gid c st' hfresh hread h
    cases henv : env.user with
    | none => simp [sendNotification, henv] at h; rw [← h]; exact hinv
    | some u =>
      have hany : st.notifications.any
          (fun n => n.id == (mkNotification env gid c).id) = false := by
        rw [List.any_eq_false]
        intro n hn
        simp only [mkNotification, beq_iff_eq]
        intro hid
        exact hfresh (List.mem_map.mpr ⟨n, hn, hid⟩)
      rw [sendNotification, henv] at h
      simp only [hany, Bool.false_eq_true, if_false] at h
      by_cases hq : env.quotaFail = true
      · simp [setItem, hq] at h
      · simp only [setItem, hq, Bool.false_eq_true, if_false, Prod.mk.injEq] at h
        rw [← h.1]
        simp only [unreadInv, List.take_succ_cons, List.filter_cons,
          mkNotification, Bool.not_false, if_true, List.length_cons]
        rw [unread_filter_take st.notifications hread]
        rw [unreadInv] at hinv
        omega

/-- Witness for C1's amended theorem: a fresh append on a consistent
one-entry state keeps the invariant. -/
theorem unread_accounting_amended_witness :
    unreadInv (sendNotification baseEnv "b" candA stOne).1 :=
  (unread_accounting_amended baseEnv stOne (by decide)).2.2.2 "b" candA
    (sendNotification baseEnv "b" candA stOne).1 (by decide) (by decide) (by decide)

/-- The session in which every localStorage write fails with a quota error. -/
def envQuota : Env := { baseEnv with quotaFail := true }

/-- C2 counterexample: when the underlying write fails (quota exceeded) the
persist is not caught — updateSettings raises the storage error to its
caller instead of completing normally. -/
theorem save_failure_counterexample :
    (updateSettings envQuota { email := some false } emptyState).2 =
      some StorageError.quotaExceeded := by
  decide

/-- C2 amended: no mutating operation wraps its localStorage.setItem call in
a try/catch, so a failing write propagates the exception to the caller of
updateSettings, markAsRead, markAllAsRead and (for a non-duplicate append)
sendNotification; in updateSettings the in-memory settings merge precedes
the write and survives, while the failed append leaves the ledger as it
was.  Only the load path catches storage errors. -/
theorem save_failure_propagates (env : Env) (u : UserT) (st : NotifState)
    (hu : env.user = some u) (hq : env.quotaFail = true) :
    (∀ p, (updateSettings env p st).2 = some StorageError.quotaExceeded ∧
      (updateSettings env p st).1.settings = mergeSettings st.settings p) ∧
    (∀ nid, (markAsRead env nid st).2 = some StorageError.quotaExceeded) ∧
    (markAllAsRead env st).2 = some StorageError.quotaExceeded ∧
    (∀ gid c, gid ∉ st.notifications.map Notification.id →
      (sendNotification env gid c st).2 = some StorageError.quotaExceeded ∧
      (sendNotification env gid c st).1 = st) := by
  refine ⟨?_, ?_, ?_, ?_⟩
  · intro p
    constructor <;> simp [updateSettings, hu, setItem, hq]
  · intro nid
    simp [markAsRead, hu, setItem, hq]
  · simp [markAllAsRead, hu, setItem, hq]
  · intro gid c hfresh
    have hany : st.notifications.any
        (fun n => n.id == (mkNotification env gid c).id) = false := by
      rw [List.any_eq_false]
      intro n hn
      simp only [mkNotification, beq_iff_eq]
      intro hid
      exact hfresh (List.mem_map.mpr ⟨n, hn, hid⟩)
    constructor <;> simp [sendNotification, hu, hany, setItem, hq]

/-- Witness for C2's amended theorem at concrete failing writes. -/
theorem save_failure_propagates_witness :
    (updateSettings envQuota { push := some false } emptyState).2 =
      some StorageError.quotaExceeded ∧
    (markAsRead envQuota "a" emptyState).2 = some StorageError.quotaExceeded ∧
    (markAllAsRead envQuota emptyState).2 = some StorageError.quotaExceeded := by
  have h := save_failure_propagates envQuota baseUser emptyState rfl rfl
  exact ⟨(h.1 _).1, h.2.1 _, h.2.2.1⟩

/-- The partial settings object { push: true }. -/
def pushOn : PartialSettings := { push := some true }

/-- C3 counterexample: on a platform that does not support push at all,
update({push: true}) is neither rejected nor reverted — the final settings
keep push == true although no platform permission is granted. -/
theorem push_invariant_counterexample :
    (updateSettings baseEnv pushOn emptyState).2 = none ∧
    (updateSettings baseEnv pushOn emptyState).1.settings.push = true ∧
    baseEnv.pushSupported = false ∧
    baseEnv.permission ≠ Permission.granted := by
  decide

/-- C3 amended: the grant guard exists only on the supported-platform paths:
when push is supported, an update enabling push whose permission request is
not granted ends with push == false, and initialization (when it actually
runs) under a denied platform permission forces push == false; when the
platform does not support push, update({push: true}) keeps push enabled with
no grant, so the full invariant does not hold. -/
theorem push_permission_amended (env : Env) (u : UserT) (p : PartialSettings)
    (st : NotifState) (hu : env.user = some u) (hsup : env.pushSupported = true)
    (hq : env.quotaFail = false) :
    (requestPushPermission env = false → p.push = some true →
      (updateSettings env p st).1.settings.push = false) ∧
    (env.permission = Permission.denied → st.initialized = false →
      (initEffect env st).1.settings.push = false) := by
  constructor
  · intro hdeny hp
    simp [updateSettings, hu, hsup, hdeny, hp, setItem, hq]
  · intro hperm hinit
    have hg : (env.permission == Permission.granted) = false := by
      rw [hperm]; rfl
    have hd : (env.permission == Permission.denied) = true := by
      rw [hperm]; rfl
    rw [initEffect, hu]
    simp only [hinit, Bool.false_eq_true, if_false, hsup, if_true, hg,
      Bool.false_and, hd, setItem, hq]
    split
    · split
      · rename_i heq
        split at heq <;> simp at heq
      · rename_i heq
        split at heq <;> (injection heq with h1 h2; subst h1; rfl)
    · rfl

/-- A not-yet-initialized provider state. -/
def stUninit : NotifState := { emptyState with initialized := false }

/-- Witness for C3's amended theorem on the denied-permission session. -/
theorem push_permission_amended_witness :
    (updateSettings envDenied pushOn emptyState).1.settings.push = false ∧
    (initEffect envDenied stUninit).1.settings.push = false := by
  have h := push_permission_amended envDenied baseUser pushOn stUninit rfl rfl rfl
  exact ⟨(push_permission_amended envDenied baseUser pushOn emptyState rfl rfl rfl).1
    (by decide) rfl, h.2 rfl rfl⟩

/-- First user of the C4 scenario. -/
def userA : UserT := { id := "uA", name := "A" }

/-- Second user of the C4 scenario. -/
def userB : UserT := { id := "uB", name := "B" }

/-- Stored settings of user A (distinguishable from the defaults). -/
def settingsA : NotificationSettings := { defaultSettings with email := false }

/-- Stored settings of user B (distinguishable from user A's). -/
def settingsB : NotificationSettings := { defaultSettings with taskReminders := false }

/-- Storage holding both users' settings. -/
def storeAB : Store :=
  [(settingsKey "uA", StoredValue.settingsVal settingsA),
   (settingsKey "uB", StoredValue.settingsVal settingsB)]

/-- A fresh session state over that storage. -/
def stFresh : NotifState :=
  { settings := defaultSettings, notifications := [], unreadCount := 0
    initialized := false, store := storeAB, writeLog := [] }

/-- Session environment of user A. -/
def envA : Env := { baseEnv with user := some userA }

/-- Session environment of user B. -/
def envB : Env := { baseEnv with user := some userB }

/-- C4 (the code relied on here is buggy): the first initialization — for
user A — loads A's stored settings and sets the session-wide initialized
flag, which is never reset; re-running the effect after a switch to user B
is a complete no-op, so B's distinct stored settings are never loaded,
although the effect declares the user id as a dependency and its own comment
says it initializes once per user. -/
theorem init_user_switch_bug :
    (initEffect envA stFresh).1.settings = settingsA ∧
    (initEffect envA stFresh).1.initialized = true ∧
    storeGet (settingsKey "uB") (initEffect envA stFresh).1.store =
      some (StoredValue.settingsVal settingsB) ∧
    settingsB ≠ settingsA ∧
    initEffect envB (initEffect envA stFresh).1 = ((initEffect envA stFresh).1, none) := by
  decide

end ModernDashboard
